import Mathlib

/-!
Shallow embedding of the Renogy BLE integration core
(custom_components/renogy: ble_utils.py, ble_parsers.py, ble_validator.py,
ble_client.py) and proofs about the spec's claims.

Modelling conventions:
* a Python `bytes` value is a `List ℕ` whose entries are intended to be < 256
  (hypotheses state this where a proof needs it);
* Python numbers (int and float) are modelled as exact rationals `ℚ`;
  `round(x, n)` is modelled by `pyRound`, Python's round-half-to-even;
* Python dicts are association lists in insertion order; heterogeneous dict
  values are the inductive `PyValue`;
* all embedded functions are total, mirroring the source's explicit guards.
-/

/-- Python `round` to an integer: round half to even (banker's rounding). -/
def pyRoundInt (q : ℚ) : ℤ :=
  let n := ⌊q⌋
  let r := q - n
  if r < 1/2 then n
  else if 1/2 < r then n + 1
  else if n % 2 = 0 then n else n + 1

/-- Python `round(q, d)`: round half to even at `d` decimal digits. -/
def pyRound (q : ℚ) (d : ℕ) : ℚ :=
  (pyRoundInt (q * 10 ^ d) : ℚ) / 10 ^ d

/-- Heterogeneous Python dict values appearing in parsed telemetry. -/
inductive PyValue where
  | num (q : ℚ)
  | pstr (s : String)
  | pbool (b : Bool)
  | plist (xs : List PyValue)
  | pnone

/-- A parsed telemetry record: a Python dict in insertion order. -/
abbrev PyDict := List (String × PyValue)

-- ==========================================================================
-- ble_utils.py
-- ==========================================================================

/-- One shift-xor round of the Modbus CRC16 inner loop (poly 0xA001). -/
def crcRound (crc : ℕ) : ℕ :=
  if crc &&& 0x0001 = 1 then (crc >>> 1) ^^^ 0xA001 else crc >>> 1

/-- Absorb one byte into the CRC state: xor, then 8 shift rounds. -/
def crcByte (crc byte : ℕ) : ℕ :=
  crcRound (crcRound (crcRound (crcRound
    (crcRound (crcRound (crcRound (crcRound (crc ^^^ byte))))))))

/-- `modbus_crc16(data)`: CRC16 with init 0xFFFF, returned as (low, high). -/
def modbusCrc16 (data : List ℕ) : ℕ × ℕ :=
  let crc := data.foldl crcByte 0xFFFF
  (crc &&& 0xFF, (crc >>> 8) &&& 0xFF)

/-- `create_modbus_read_request(device_id, function_code, register, word_count)`:
the 6-byte header followed by the CRC, low byte first. -/
def createModbusReadRequest
    (deviceId functionCode register wordCount : ℕ) : List ℕ :=
  let frame : List ℕ :=
    [deviceId, functionCode,
     (register >>> 8) &&& 0xFF, register &&& 0xFF,
     (wordCount >>> 8) &&& 0xFF, wordCount &&& 0xFF]
  let c := modbusCrc16 frame
  frame ++ [c.1, c.2]

/-- Big-endian unsigned word read used by bit-manipulating parser sites.
Mirrors the unscaled, unsigned branches of `bytes_to_int` (which return a
Python int there); out-of-range or unsupported lengths yield 0. -/
def readWord (data : List ℕ) (offset len : ℕ) : ℕ :=
  if data.length < offset + len then 0
  else if len = 1 then data.getD offset 0
  else if len = 2 then
    ((data.getD offset 0) <<< 8) ||| data.getD (offset + 1) 0
  else if len = 4 then
    ((data.getD offset 0) <<< 24) ||| ((data.getD (offset + 1) 0) <<< 16) |||
      ((data.getD (offset + 2) 0) <<< 8) ||| data.getD (offset + 3) 0
  else 0

/-- `bytes_to_int(data, offset, length, scale, signed)`.

Returns 0 if the slice overruns the data or the length is unsupported;
otherwise reads big-endian, applies two's-complement when signed, and — when
the scale is not 1 — multiplies by the scale and rounds to 3 decimals. -/
def bytesToInt (data : List ℕ) (offset len : ℕ) (scale : ℚ) (signed : Bool) :
    ℚ :=
  if data.length < offset + len then 0
  else
    let sv : Option ℤ :=
      if len = 1 then
        let v := data.getD offset 0
        Option.some (if signed ∧ 127 < v then (v : ℤ) - 256 else (v : ℤ))
      else if len = 2 then
        let v := ((data.getD offset 0) <<< 8) ||| data.getD (offset + 1) 0
        Option.some (if signed ∧ 32767 < v then (v : ℤ) - 65536 else (v : ℤ))
      else if len = 4 then
        let v := ((data.getD offset 0) <<< 24) |||
          ((data.getD (offset + 1) 0) <<< 16) |||
          ((data.getD (offset + 2) 0) <<< 8) ||| data.getD (offset + 3) 0
        Option.some
          (if signed ∧ 2147483647 < v then (v : ℤ) - 4294967296 else (v : ℤ))
      else Option.none
    match sv with
    | Option.some v => if scale ≠ 1 then pyRound ((v : ℚ) * scale) 3 else (v : ℚ)
    | Option.none => 0

/-- Strip characters satisfying `p` from both ends of a string. -/
def stripEnds (p : Char → Bool) (s : String) : String :=
  String.mk (((s.data.dropWhile p).reverse.dropWhile p).reverse)

/-- `bytes_to_ascii(data, offset, length)`: keep printable ASCII, then strip
surrounding whitespace. -/
def bytesToAscii (data : List ℕ) (offset len : ℕ) : String :=
  if data.length < offset + len then ""
  else
    let chars := (List.range len).filterMap (fun i =>
      let c := data.getD (offset + i) 0
      if 32 ≤ c ∧ c ≤ 126 then Option.some (Char.ofNat c) else Option.none)
    stripEnds (fun c => c = ' ') (String.mk chars)

/-- `parse_temperature(raw_value, offset)`: sign-bit temperature decoding. -/
def parseTemperature (rawValue : ℕ) (offset : ℤ) : ℤ :=
  if 127 < rawValue then -((rawValue : ℤ) - 128) - offset
  else (rawValue : ℤ) - offset

/-- `validate_modbus_response(data, expected_device_id)`. -/
def validateModbusResponse (data : List ℕ) (expected : Option ℕ) : Bool :=
  if data.length < 5 then false
  else if expected.any (fun e => data.getD 0 0 != e) then false
  else if (data.getD 1 0) &&& 0x80 ≠ 0 then false
  else
    -- the source guards this block by `len(data) >= 5`, which holds here
    let byteCount := data.getD 2 0
    let expectedLen := 3 + byteCount + 2
    if data.length < expectedLen then false
    else
      let payload := data.take (expectedLen - 2)
      let receivedCrc :=
        ((data.getD (expectedLen - 1) 0) <<< 8) ||| data.getD (expectedLen - 2) 0
      let c := modbusCrc16 payload
      let calculatedCrc := (c.2 <<< 8) ||| c.1
      if receivedCrc ≠ calculatedCrc then false else true

-- ==========================================================================
-- ble_parsers.py
-- ==========================================================================

/-- Renogy BLE device types. -/
inductive DeviceType where
  | controller
  | battery
  | inverter
deriving DecidableEq

def CONTROLLER_CHARGING_STATE : List (ℕ × String) :=
  [(0, "deactivated"), (1, "activated"), (2, "mppt"), (3, "equalizing"),
   (4, "boost"), (5, "floating"), (6, "current_limiting")]

def CONTROLLER_LOAD_STATE : List (ℕ × String) := [(0, "off"), (1, "on")]

def CONTROLLER_BATTERY_TYPE : List (ℕ × String) :=
  [(1, "open"), (2, "sealed"), (3, "gel"), (4, "lithium"), (5, "custom")]

/-- `parse_controller_device_info(data, offset=3)`. -/
def parseControllerDeviceInfo (data : List ℕ) (offset : ℕ) : PyDict :=
  if data.length < offset + 16 then []
  else
    [("model",
      PyValue.pstr (stripEnds (fun c => c = '\x00') (bytesToAscii data offset 16)))]

/-- `parse_controller_device_id(data, offset=3)`. -/
def parseControllerDeviceId (data : List ℕ) (offset : ℕ) : PyDict :=
  if data.length < offset + 2 then []
  else [("device_id", PyValue.num (bytesToInt data offset 1 1 false))]

/-- `parse_controller_charging_info(data, offset=3)`: the main controller
data block (registers 256-289). -/
def parseControllerChargingInfo (data : List ℕ) (offset : ℕ) : PyDict :=
  if data.length < offset + 68 then []
  else
    let batteryTempRaw := readWord data (offset + 7) 1
    let controllerTempRaw := readWord data (offset + 6) 1
    let loadStatusByte := readWord data (offset + 64) 1
    let chargingStatusByte := readWord data (offset + 65) 1
    [("battery_percentage", PyValue.num (bytesToInt data (offset + 0) 2 1 false)),
     ("battery_voltage", PyValue.num (bytesToInt data (offset + 2) 2 (1/10) false)),
     ("battery_current", PyValue.num (bytesToInt data (offset + 4) 2 (1/100) false)),
     ("battery_temperature", PyValue.num (parseTemperature batteryTempRaw 0)),
     ("controller_temperature", PyValue.num (parseTemperature controllerTempRaw 0)),
     ("load_voltage", PyValue.num (bytesToInt data (offset + 8) 2 (1/10) false)),
     ("load_current", PyValue.num (bytesToInt data (offset + 10) 2 (1/100) false)),
     ("load_power", PyValue.num (bytesToInt data (offset + 12) 2 1 false)),
     ("pv_voltage", PyValue.num (bytesToInt data (offset + 14) 2 (1/10) false)),
     ("pv_current", PyValue.num (bytesToInt data (offset + 16) 2 (1/100) false)),
     ("pv_power", PyValue.num (bytesToInt data (offset + 18) 2 1 false)),
     ("max_charging_power_today", PyValue.num (bytesToInt data (offset + 30) 2 1 false)),
     ("max_discharging_power_today", PyValue.num (bytesToInt data (offset + 32) 2 1 false)),
     ("charging_amp_hours_today", PyValue.num (bytesToInt data (offset + 34) 2 1 false)),
     ("discharging_amp_hours_today", PyValue.num (bytesToInt data (offset + 36) 2 1 false)),
     ("power_generation_today", PyValue.num (bytesToInt data (offset + 38) 2 1 false)),
     ("power_consumption_today", PyValue.num (bytesToInt data (offset + 40) 2 1 false)),
     ("power_generation_total", PyValue.num (bytesToInt data (offset + 56) 4 1 false)),
     ("load_status",
      PyValue.pstr ((CONTROLLER_LOAD_STATE.lookup ((loadStatusByte >>> 7) &&& 1)).getD "unknown")),
     ("charging_status",
      PyValue.pstr ((CONTROLLER_CHARGING_STATE.lookup chargingStatusByte).getD "unknown"))]

/-- `parse_controller_battery_type(data, offset=3)`. -/
def parseControllerBatteryType (data : List ℕ) (offset : ℕ) : PyDict :=
  if data.length < offset + 2 then []
  else
    let batteryTypeVal := readWord data offset 2
    [("battery_type",
      PyValue.pstr ((CONTROLLER_BATTERY_TYPE.lookup batteryTypeVal).getD "unknown"))]

/-- Bit-index → fault-name table of `parse_controller_faults`, in source
(dict insertion) order. -/
def CONTROLLER_FAULT_MAP : List (ℕ × String) :=
  [(30, "charge_mos_short_circuit"),
   (29, "anti_reverse_mos_short"),
   (28, "solar_panel_reversed"),
   (27, "pv_working_point_overvoltage"),
   (26, "pv_counter_current"),
   (25, "pv_input_overvoltage"),
   (24, "pv_input_short_circuit"),
   (23, "pv_input_overpower"),
   (22, "ambient_temp_too_high"),
   (21, "controller_temp_too_high"),
   (20, "load_overpower"),
   (19, "load_short_circuit"),
   (17, "battery_overvoltage"),
   (16, "battery_over_discharge")]

/-- The mapping `parse_controller_faults` returns when the payload is too
short: the initial result dict, untouched. -/
def controllerFaultsShortResult : PyDict :=
  [("faults", PyValue.plist []),
   ("warnings", PyValue.plist []),
   ("fault_count", PyValue.num 0),
   ("warning_count", PyValue.num 0)]

/-- `parse_controller_faults(data, offset=3)`: 32-bit fault/warning bitmap. -/
def parseControllerFaults (data : List ℕ) (offset : ℕ) : PyDict :=
  if data.length < offset + 4 then controllerFaultsShortResult
  else
    let highWord := readWord data offset 2
    let lowWord := readWord data (offset + 2) 2
    let faultBits := (highWord <<< 16) ||| lowWord
    let faults := (CONTROLLER_FAULT_MAP.filter
      (fun p => faultBits &&& (1 <<< p.1) != 0)).map
      (fun p => PyValue.pstr p.2)
    -- bit 18 is a warning, not a fault
    let warnings : List PyValue :=
      if faultBits &&& (1 <<< 18) ≠ 0 then [PyValue.pstr "battery_undervoltage"]
      else []
    [("faults", PyValue.plist faults),
     ("warnings", PyValue.plist warnings),
     ("fault_count", PyValue.num faults.length),
     ("warning_count", PyValue.num warnings.length)]

/-- `parse_controller_historical(data, offset=3)`: 7-day history lists. -/
def parseControllerHistorical (data : List ℕ) (offset : ℕ) : PyDict :=
  if data.length < offset + 42 then []
  else
    let dailyGeneration := (List.range 7).map
      (fun i => PyValue.num (bytesToInt data (offset + i * 2) 2 1 false))
    let dailyChargeAh := (List.range 7).map
      (fun i => PyValue.num (bytesToInt data (offset + 14 + i * 2) 2 1 false))
    let dailyMaxPower := (List.range 7).map
      (fun i => PyValue.num (bytesToInt data (offset + 28 + i * 2) 2 1 false))
    [("daily_power_generation", PyValue.plist dailyGeneration),
     ("daily_charge_ah", PyValue.plist dailyChargeAh),
     ("daily_max_power", PyValue.plist dailyMaxPower)]

/-- `parse_battery_cell_info(data, offset=3)`. -/
def parseBatteryCellInfo (data : List ℕ) (offset : ℕ) : PyDict :=
  if data.length < offset + 4 then []
  else
    let cellCount := readWord data offset 2
    let shownCount := min cellCount 16
    let cellVoltages := (List.range shownCount).filterMap (fun i =>
      if offset + 2 + i * 2 + 2 ≤ data.length then
        Option.some
          (PyValue.num (pyRound (bytesToInt data (offset + 2 + i * 2) 2 (1/10) false) 2))
      else Option.none)
    [("cell_count", PyValue.num shownCount),
     ("cell_voltages", PyValue.plist cellVoltages)]

/-- `parse_battery_temp_info(data, offset=3)`. -/
def parseBatteryTempInfo (data : List ℕ) (offset : ℕ) : PyDict :=
  if data.length < offset + 4 then []
  else
    let tempCount := readWord data offset 2
    let shownCount := min tempCount 8
    let temperatures := (List.range shownCount).filterMap (fun i =>
      if offset + 2 + i * 2 + 2 ≤ data.length then
        Option.some
          (pyRound (bytesToInt data (offset + 2 + i * 2) 2 1 true * (1/10)) 1)
      else Option.none)
    [("temperature_count", PyValue.num shownCount),
     ("temperatures", PyValue.plist (temperatures.map PyValue.num))] ++
      (match temperatures with
       | t :: _ => [("battery_temperature", PyValue.num t)]
       | [] => [])

/-- `parse_battery_info(data, offset=3)`: main battery block with the derived
`soc` and `power` fields. -/
def parseBatteryInfo (data : List ℕ) (offset : ℕ) : PyDict :=
  if data.length < offset + 12 then []
  else
    let current := bytesToInt data offset 2 (1/100) true
    let voltage := bytesToInt data (offset + 2) 2 (1/10) false
    let remainingCapacity := bytesToInt data (offset + 4) 4 (1/1000) false
    let totalCapacity := bytesToInt data (offset + 8) 4 (1/1000) false
    let soc : ℚ :=
      if 0 < totalCapacity then pyRound (remainingCapacity / totalCapacity * 100) 1
      else 0
    let power := pyRound (voltage * current) 1
    [("current", PyValue.num current),
     ("voltage", PyValue.num voltage),
     ("remaining_capacity", PyValue.num remainingCapacity),
     ("total_capacity", PyValue.num totalCapacity),
     ("soc", PyValue.num soc),
     ("power", PyValue.num power)]

/-- 2-bit alarm decode of the per-cell words: code 1/2/3 appends a named
alarm, code 0 appends nothing. -/
def cellAlarmList (word : ℕ) (mid suffix3 : String) : List PyValue :=
  (List.range 16).filterMap (fun cell =>
    let alarmCode := (word >>> (cell * 2)) &&& 0x03
    if alarmCode = 1 then
      Option.some (PyValue.pstr ("cell_" ++ toString (cell + 1) ++ "_under" ++ mid))
    else if alarmCode = 2 then
      Option.some (PyValue.pstr ("cell_" ++ toString (cell + 1) ++ "_over" ++ mid))
    else if alarmCode = 3 then
      Option.some (PyValue.pstr ("cell_" ++ toString (cell + 1) ++ suffix3))
    else Option.none)

/-- (name, bit position) table for the "other alarm" word of
`parse_battery_alarm_info`, in source order. -/
def BATTERY_OTHER_ALARM_NAMES : List (String × ℕ) :=
  [("bms_board_temp", 0), ("bms_board_temp", 2),
   ("env_temp_1", 4), ("env_temp_1", 6),
   ("env_temp_2", 8), ("env_temp_2", 10),
   ("heater_temp_1", 12), ("heater_temp_1", 14),
   ("heater_temp_2", 16), ("heater_temp_2", 18),
   ("charge_current", 20), ("charge_current", 22),
   ("discharge_current", 24), ("discharge_current", 26)]

/-- Status1 bit → fault-name table, in source order. -/
def BATTERY_STATUS1_FAULTS : List (ℕ × String) :=
  [(15, "module_undervoltage"), (14, "charge_overtemp"), (13, "charge_undertemp"),
   (12, "discharge_overtemp"), (11, "discharge_undertemp"),
   (10, "discharge_overcurrent1"), (9, "charge_overcurrent1"),
   (8, "cell_overvoltage"), (7, "cell_undervoltage"), (6, "module_overvoltage"),
   (5, "discharge_overcurrent2"), (4, "charge_overcurrent2"),
   (0, "short_circuit")]

/-- Status3 low-byte bit → warning-name table, in source order. -/
def BATTERY_WARNING_MAP_LOW : List (ℕ × String) :=
  [(7, "discharge_high_temp"), (6, "discharge_low_temp"), (5, "charge_high_temp"),
   (4, "charge_low_temp"), (3, "module_high_voltage"), (2, "module_low_voltage"),
   (1, "cell_high_voltage"), (0, "cell_low_voltage")]

/-- The mapping `parse_battery_alarm_info` returns when the payload is too
short: the initial lists plus the two zero counters. -/
def batteryAlarmShortResult : PyDict :=
  [("cell_voltage_alarms", PyValue.plist []),
   ("cell_temperature_alarms", PyValue.plist []),
   ("protection_alarms", PyValue.plist []),
   ("warnings", PyValue.plist []),
   ("alarm_count", PyValue.num 0),
   ("warning_count", PyValue.num 0)]

/-- `parse_battery_alarm_info(data, offset=3)`: the four-word BMS alarm block
(registers 5100-5109). -/
def parseBatteryAlarmInfo (data : List ℕ) (offset : ℕ) : PyDict :=
  if data.length < offset + 20 then batteryAlarmShortResult
  else
    let cellVoltageAlarm := readWord data offset 4
    let cellVoltageAlarms := cellAlarmList cellVoltageAlarm "voltage" "_alarm"
    let cellTempAlarm := readWord data (offset + 4) 4
    let cellTemperatureAlarms := cellAlarmList cellTempAlarm "temp" "_temp_alarm"
    let otherAlarm := readWord data (offset + 8) 4
    let otherAlarms := BATTERY_OTHER_ALARM_NAMES.filterMap (fun p =>
      let alarmCode := (otherAlarm >>> p.2) &&& 0x03
      if alarmCode = 1 then Option.some (PyValue.pstr (p.1 ++ "_low"))
      else if alarmCode = 2 then Option.some (PyValue.pstr (p.1 ++ "_high"))
      else if alarmCode = 3 then Option.some (PyValue.pstr (p.1 ++ "_alarm"))
      else Option.none)
    let status1 := readWord data (offset + 12) 2
    let status1Alarms := (BATTERY_STATUS1_FAULTS.filter
      (fun p => status1 &&& (1 <<< p.1) != 0)).map (fun p => PyValue.pstr p.2)
    let protectionAlarms := otherAlarms ++ status1Alarms
    let status2 := readWord data (offset + 14) 2
    let status3 := readWord data (offset + 16) 2
    let warningsLow := (BATTERY_WARNING_MAP_LOW.filter
      (fun p => status3 &&& (1 <<< p.1) != 0)).map (fun p => PyValue.pstr p.2)
    let warningsHigh := (List.range 8).filterMap (fun i =>
      if status3 &&& (1 <<< (8 + i)) ≠ 0 then
        Option.some (PyValue.pstr ("cell_" ++ toString (11 + i) ++ "_voltage_error"))
      else Option.none)
    let warnings := warningsLow ++ warningsHigh
    let status4 := readWord data (offset + 18) 2
    let allAlarms := cellVoltageAlarms ++ cellTemperatureAlarms ++ protectionAlarms
    [("cell_voltage_alarms", PyValue.plist cellVoltageAlarms),
     ("cell_temperature_alarms", PyValue.plist cellTemperatureAlarms),
     ("protection_alarms", PyValue.plist protectionAlarms),
     ("warnings", PyValue.plist warnings),
     ("using_battery_power", PyValue.pbool (status1 &&& (1 <<< 3) != 0)),
     ("discharge_mosfet", PyValue.pstr (if status1 &&& (1 <<< 2) ≠ 0 then "on" else "off")),
     ("charge_mosfet", PyValue.pstr (if status1 &&& (1 <<< 1) ≠ 0 then "on" else "off")),
     ("effective_charge", PyValue.pbool (status2 &&& (1 <<< 15) != 0)),
     ("effective_discharge", PyValue.pbool (status2 &&& (1 <<< 14) != 0)),
     ("heater_on", PyValue.pbool (status2 &&& (1 <<< 13) != 0)),
     ("fully_charged", PyValue.pbool (status2 &&& (1 <<< 11) != 0)),
     ("buzzer_on", PyValue.pbool (status2 &&& (1 <<< 8) != 0)),
     ("discharge_enabled", PyValue.pbool (status4 &&& (1 <<< 7) != 0)),
     ("charge_enabled", PyValue.pbool (status4 &&& (1 <<< 6) != 0)),
     ("charge_immediately", PyValue.pbool (status4 &&& (1 <<< 5) != 0)),
     ("full_charge_request", PyValue.pbool (status4 &&& (1 <<< 3) != 0)),
     ("alarms", PyValue.plist allAlarms),
     ("alarm_count", PyValue.num allAlarms.length),
     ("warning_count", PyValue.num warnings.length)]

/-- `parse_battery_device_info(data, offset=3)`. -/
def parseBatteryDeviceInfo (data : List ℕ) (offset : ℕ) : PyDict :=
  if data.length < offset + 16 then []
  else
    [("model",
      PyValue.pstr (stripEnds (fun c => c = '\x00') (bytesToAscii data offset 16)))]

def INVERTER_CHARGING_STATE : List (ℕ × String) :=
  [(0, "not_charging"), (1, "constant_current"), (2, "constant_voltage"),
   (4, "float"), (6, "battery_activation"), (7, "battery_disconnect")]

def INVERTER_MACHINE_STATE : List (ℕ × String) :=
  [(0, "power_on_delay"), (1, "waiting"), (2, "initialization"), (3, "soft_start"),
   (4, "mains_operation"), (5, "inverter_operation"), (6, "inverter_to_mains"),
   (7, "mains_to_inverter"), (10, "shutdown"), (11, "fault")]

def INVERTER_OUTPUT_PRIORITY : List (ℕ × String) :=
  [(0, "solar"), (1, "line"), (2, "sbu")]

/-- High status word bit → fault-name table of `parse_inverter_main_status`. -/
def INVERTER_HIGH_FAULTS : List (ℕ × String) :=
  [(15, "input_uvp"), (14, "input_ovp"), (13, "output_overload"),
   (12, "dcdc_overload"), (11, "dcdc_overcurrent"), (10, "bus_overvoltage"),
   (9, "ground_fault"), (8, "over_temperature"), (7, "output_short_circuit"),
   (6, "output_uvp"), (5, "output_ovp")]

/-- Low status word bit → fault-name table of `parse_inverter_main_status`. -/
def INVERTER_LOW_FAULTS : List (ℕ × String) :=
  [(15, "utility_fail"), (14, "battery_low"), (13, "apr_active"),
   (12, "ups_fail"), (9, "shutdown_active"), (7, "fan_locked"),
   (6, "inverter_overload"), (5, "inverter_short_circuit"), (4, "battery_bad")]

/-- The local `safe_value(raw, scale, max_valid)` helper of
`parse_inverter_main_status`. -/
def inverterSafeValue (raw : ℕ) (scale : ℚ) (maxValid : ℕ) : ℚ :=
  if maxValid ≤ raw then 0 else pyRound ((raw : ℚ) * scale) 2

/-- `parse_inverter_main_status(data, offset=3)`. -/
def parseInverterMainStatus (data : List ℕ) (offset : ℕ) : PyDict :=
  if data.length < offset + 18 then []
  else
    let inputVRaw := readWord data offset 2
    let inputCRaw := readWord data (offset + 2) 2
    let inputVoltage := inverterSafeValue inputVRaw (1/10) 65000
    let inputCurrent := inverterSafeValue inputCRaw (1/100) 65000
    let outputVoltage := bytesToInt data (offset + 4) 2 (1/10) false
    let outputCurrent := bytesToInt data (offset + 6) 2 (1/100) false
    let head : PyDict :=
      [("input_voltage", PyValue.num inputVoltage),
       ("input_current", PyValue.num inputCurrent),
       ("output_voltage", PyValue.num outputVoltage),
       ("output_current", PyValue.num outputCurrent),
       ("output_frequency", PyValue.num (bytesToInt data (offset + 8) 2 (1/100) false)),
       ("battery_voltage", PyValue.num (bytesToInt data (offset + 10) 2 (1/10) false)),
       ("temperature", PyValue.num (bytesToInt data (offset + 12) 2 (1/10) false))]
    let statusPart : PyDict :=
      if offset + 18 ≤ data.length then
        let statusHigh := readWord data (offset + 14) 2
        let statusLow := readWord data (offset + 16) 2
        let highFaults := (INVERTER_HIGH_FAULTS.filter
          (fun p => statusHigh &&& (1 <<< p.1) != 0)).map (fun p => PyValue.pstr p.2)
        let lowFaults := (INVERTER_LOW_FAULTS.filter
          (fun p => statusLow &&& (1 <<< p.1) != 0)).map (fun p => PyValue.pstr p.2)
        let faults := highFaults ++ lowFaults
        [("faults", PyValue.plist faults),
         ("eco_mode", PyValue.pbool (statusHigh &&& (1 <<< 4) != 0)),
         ("ups_line_interactive", PyValue.pbool (statusLow &&& (1 <<< 11) != 0)),
         ("test_in_progress", PyValue.pbool (statusLow &&& (1 <<< 10) != 0)),
         ("beeper_on", PyValue.pbool (statusLow &&& (1 <<< 8) != 0)),
         ("fault_count", PyValue.num faults.length)]
      else []
    let freqPart : PyDict :=
      if offset + 20 ≤ data.length then
        [("input_frequency",
          PyValue.num (inverterSafeValue (readWord data (offset + 18) 2) (1/100) 65000))]
      else []
    let inputPower : ℚ :=
      if 0 < inputVoltage ∧ 0 < inputCurrent then
        pyRound (inputVoltage * inputCurrent) 1
      else 0
    let outputPower := pyRound (outputVoltage * outputCurrent) 1
    head ++ statusPart ++ freqPart ++
      [("input_power", PyValue.num inputPower),
       ("output_power", PyValue.num outputPower)]

/-- `parse_inverter_device_info(data, offset=3)`. -/
def parseInverterDeviceInfo (data : List ℕ) (offset : ℕ) : PyDict :=
  if data.length < offset + 48 then []
  else
    [("manufacturer", PyValue.pstr (bytesToAscii data offset 16)),
     ("model", PyValue.pstr (bytesToAscii data (offset + 16) 16)),
     ("firmware_version", PyValue.pstr (bytesToAscii data (offset + 32) 16))]

/-- `parse_inverter_pv_info(data, offset=3)`. -/
def parseInverterPvInfo (data : List ℕ) (offset : ℕ) : PyDict :=
  if data.length < offset + 12 then []
  else
    let head : PyDict :=
      [("battery_soc", PyValue.num (bytesToInt data offset 2 1 false)),
       ("charge_current", PyValue.num (bytesToInt data (offset + 2) 2 (1/10) false)),
       ("pv_voltage", PyValue.num (bytesToInt data (offset + 4) 2 (1/10) false)),
       ("pv_current", PyValue.num (bytesToInt data (offset + 6) 2 (1/10) false)),
       ("pv_power", PyValue.num (bytesToInt data (offset + 8) 2 1 false))]
    let tail : PyDict :=
      if offset + 12 ≤ data.length then
        let chargeState := (readWord data (offset + 10) 2) &&& 0xFF
        [("charging_status",
          PyValue.pstr ((INVERTER_CHARGING_STATE.lookup chargeState).getD "unknown"))]
      else []
    head ++ tail

/-- `parse_inverter_settings_status(data, offset=3)`. -/
def parseInverterSettingsStatus (data : List ℕ) (offset : ℕ) : PyDict :=
  if data.length < offset + 30 then []
  else
    (if offset + 16 ≤ data.length then
      let machineState := readWord data (offset + 14) 2
      [("machine_state",
        PyValue.pstr ((INVERTER_MACHINE_STATE.lookup machineState).getD "unknown"))]
     else []) ++
    (if offset + 20 ≤ data.length then
      [("bus_voltage", PyValue.num (bytesToInt data (offset + 18) 2 (1/10) false))]
     else []) ++
    (if offset + 26 ≤ data.length then
      [("load_current", PyValue.num (bytesToInt data (offset + 20) 2 (1/10) false)),
       ("load_active_power", PyValue.num (bytesToInt data (offset + 22) 2 1 false)),
       ("load_apparent_power", PyValue.num (bytesToInt data (offset + 24) 2 1 false))]
     else []) ++
    (if offset + 32 ≤ data.length then
      [("load_percentage", PyValue.num (bytesToInt data (offset + 30) 2 1 false))]
     else [])

/-- `parse_inverter_statistics(data, offset=3)`. -/
def parseInverterStatistics (data : List ℕ) (offset : ℕ) : PyDict :=
  if data.length < offset + 10 then []
  else
    [("battery_charge_ah_today", PyValue.num (bytesToInt data offset 2 1 false)),
     ("battery_discharge_ah_today", PyValue.num (bytesToInt data (offset + 2) 2 1 false)),
     ("pv_generation_today", PyValue.num (bytesToInt data (offset + 4) 2 (1/10) false)),
     ("load_consumption_today", PyValue.num (bytesToInt data (offset + 6) 2 (1/10) false))] ++
    (if offset + 30 ≤ data.length then
      [("battery_charge_ah_total", PyValue.num (bytesToInt data (offset + 14) 4 1 false)),
       ("battery_discharge_ah_total", PyValue.num (bytesToInt data (offset + 18) 4 1 false)),
       ("pv_generation_total", PyValue.num (bytesToInt data (offset + 22) 4 (1/10) false)),
       ("load_consumption_total", PyValue.num (bytesToInt data (offset + 26) 4 (1/10) false))]
     else [])

/-- `parse_inverter_settings(data, offset=3)`. -/
def parseInverterSettings (data : List ℕ) (offset : ℕ) : PyDict :=
  if data.length < offset + 8 then []
  else
    let outputPriority := readWord data offset 2
    let outputFreq := readWord data (offset + 2) 2
    let acRange := readWord data (offset + 4) 2
    let powerSaving := readWord data (offset + 6) 2
    [("output_priority",
      PyValue.pstr ((INVERTER_OUTPUT_PRIORITY.lookup outputPriority).getD "unknown")),
     ("output_frequency_setting", PyValue.num (pyRound ((outputFreq : ℚ) * (1/100)) 1)),
     ("ac_voltage_range", PyValue.pstr (if acRange = 0 then "wide" else "narrow")),
     ("power_saving_mode", PyValue.pbool (powerSaving == 1))]

-- ==========================================================================
-- Parser dispatch (the PARSERS table and parse_response)
-- ==========================================================================

/-- The per-device-type dispatch table `PARSERS`: register address → decoder.
Each entry applies the source parser at its default offset 3. -/
def PARSERS (dt : DeviceType) : List (ℕ × (List ℕ → PyDict)) :=
  match dt with
  | DeviceType.controller =>
      [(12, fun data => parseControllerDeviceInfo data 3),
       (26, fun data => parseControllerDeviceId data 3),
       (256, fun data => parseControllerChargingInfo data 3),
       (289, fun data => parseControllerFaults data 3),
       (57348, fun data => parseControllerBatteryType data 3),
       (60000, fun data => parseControllerHistorical data 3)]
  | DeviceType.battery =>
      [(5000, fun data => parseBatteryCellInfo data 3),
       (5017, fun data => parseBatteryTempInfo data 3),
       (5042, fun data => parseBatteryInfo data 3),
       (5100, fun data => parseBatteryAlarmInfo data 3),
       (5122, fun data => parseBatteryDeviceInfo data 3)]
  | DeviceType.inverter =>
      [(4000, fun data => parseInverterMainStatus data 3),
       (4303, fun data => parseInverterDeviceInfo data 3),
       (4327, fun data => parseInverterPvInfo data 3),
       (4398, fun data => parseInverterSettingsStatus data 3),
       (4441, fun data => parseInverterSettings data 3),
       (4543, fun data => parseInverterStatistics data 3)]

/-- `parse_response(device_type, register, data)`: unknown register → empty
mapping.  (The source also catches any decoder exception and returns an
empty mapping; the embedded decoders are total, so that branch never fires.) -/
def parseResponse (dt : DeviceType) (register : ℕ) (data : List ℕ) : PyDict :=
  match (PARSERS dt).lookup register with
  | Option.some f => f data
  | Option.none => []

/-- Minimum payload length each dispatch-table parser requires (its leading
guard, at the default offset 3) before it produces decoded register data. -/
def minRequiredLen (dt : DeviceType) (register : ℕ) : ℕ :=
  match dt with
  | DeviceType.controller =>
      if register = 12 then 19
      else if register = 26 then 5
      else if register = 256 then 71
      else if register = 289 then 7
      else if register = 57348 then 5
      else 45
  | DeviceType.battery =>
      if register = 5000 then 7
      else if register = 5017 then 7
      else if register = 5042 then 15
      else if register = 5100 then 23
      else 19
  | DeviceType.inverter =>
      if register = 4000 then 21
      else if register = 4303 then 51
      else if register = 4327 then 15
      else if register = 4398 then 33
      else if register = 4441 then 11
      else 13

/-- What each dispatch-table parser returns on a too-short payload: the empty
mapping, except the two bitmap parsers which return their initialized
default mapping. -/
def shortPayloadResult (dt : DeviceType) (register : ℕ) : PyDict :=
  match dt with
  | DeviceType.controller =>
      if register = 289 then controllerFaultsShortResult else []
  | DeviceType.battery =>
      if register = 5100 then batteryAlarmShortResult else []
  | DeviceType.inverter => []

-- ==========================================================================
-- ble_validator.py
-- ==========================================================================

/-- Base validation limits for a 12V system: (min, max, max_change_per_update),
in source (dict insertion) order. -/
def CONTROLLER_BASE_LIMITS : List (String × (ℚ × ℚ × ℚ)) :=
  [("battery_voltage", (0, 20, 5)),
   ("battery_current", (-100, 100, 50)),
   ("battery_percentage", (0, 100, 50)),
   ("battery_temperature", (-40, 85, 20)),
   ("charging_amp_hours_today", (0, 10000, 200)),
   ("discharging_amp_hours_today", (0, 10000, 200)),
   ("pv_voltage", (0, 30, 10)),
   ("pv_current", (0, 100, 50)),
   ("pv_power", (0, 5000, 2000)),
   ("max_charging_power_today", (0, 5000, 5000)),
   ("power_generation_today", (0, 50000, 50000)),
   ("power_generation_total", (0, 1000000000, 100000)),
   ("load_voltage", (0, 20, 20)),
   ("load_current", (0, 20, 20)),
   ("load_power", (0, 3000, 1500)),
   ("power_consumption_today", (0, 50000, 50000)),
   ("max_discharging_power_today", (0, 3000, 3000)),
   ("controller_temperature", (-40, 85, 20))]

/-- Keys whose max and max_change scale with system voltage. -/
def VOLTAGE_SCALED_KEYS : List String :=
  ["battery_voltage", "pv_voltage", "load_voltage"]

/-- `get_controller_validation_limits(system_voltage)`. -/
def getControllerValidationLimits (systemVoltage : ℕ) :
    List (String × (ℚ × ℚ × ℚ)) :=
  let multiplier : ℚ := max ((systemVoltage : ℚ) / 12) 1
  CONTROLLER_BASE_LIMITS.map (fun p =>
    if VOLTAGE_SCALED_KEYS.contains p.1 then
      (p.1, (p.2.1, p.2.2.1 * multiplier, p.2.2.2 * multiplier))
    else p)

/-- The reason kind recorded with a rejection (the source builds a reason
string whose prefix is one of these three tags). -/
inductive RejectReason where
  | belowMinimum
  | aboveMaximum
  | spikeDetected
deriving DecidableEq

/-- One entry of the rejection log.  The wall-clock `timestamp` field of the
source entry is not modelled. -/
structure Rejection where
  sensor : String
  rejectedValue : ℚ
  reason : RejectReason
  lastGoodValue : Option ℚ
deriving DecidableEq

/-- `DataValidator` state: the validation catalog fixed at construction, the
last-known-good value per field, and the capped rejection log.  The
`device_name` used only for logging is not modelled. -/
structure DataValidator where
  limits : List (String × (ℚ × ℚ × ℚ))
  lastGoodValues : List (String × ℚ)
  rejectionLog : List Rejection

/-- `DataValidator.__init__`: controller devices get the scaled catalog,
other device types get an empty catalog (validation is a pass-through). -/
def mkDataValidator (deviceType : String) (systemVoltage : ℕ) : DataValidator :=
  { limits :=
      if deviceType = "controller" then getControllerValidationLimits systemVoltage
      else [],
    lastGoodValues := [],
    rejectionLog := [] }

/-- `_add_to_rejection_log`: append, then keep only the newest 100 entries. -/
def addToRejectionLog (log : List Rejection) (rejection : Rejection) :
    List Rejection :=
  let l := log ++ [rejection]
  if 100 < l.length then l.drop (l.length - 100) else l

/-- Python dict item assignment on an association list: replace the value of
an existing key in place, else append the pair. -/
def dictSet (d : List (String × α)) (k : String) (v : α) : List (String × α) :=
  if d.any (fun p => p.1 == k) then
    d.map (fun p => if p.1 = k then (k, v) else p)
  else d ++ [(k, v)]

/-- `isinstance(value, (int, float))` plus numeric extraction; Python counts
booleans as ints. -/
def toNumber (v : PyValue) : Option ℚ :=
  match v with
  | PyValue.num q => Option.some q
  | PyValue.pbool b => Option.some (if b then 1 else 0)
  | _ => Option.none

/-- One iteration of the `validate_data` loop: process one (key, value) item
against the state, updating the validated output, the rejection list and the
validator state. -/
def validateField (st : DataValidator) (validated : PyDict)
    (rejections : List Rejection) (key : String) (value : PyValue) :
    DataValidator × PyDict × List Rejection :=
  match st.limits.lookup key with
  | Option.none => (st, validated, rejections)
  | Option.some (minVal, maxVal, maxChange) =>
    match toNumber value with
    | Option.none => (st, validated, rejections)
    | Option.some x =>
      let rangeReason : Option RejectReason :=
        if x < minVal then Option.some RejectReason.belowMinimum
        else if maxVal < x then Option.some RejectReason.aboveMaximum
        else Option.none
      let rejectionReason : Option RejectReason :=
        match rangeReason, st.lastGoodValues.lookup key with
        | Option.none, Option.some lastValue =>
          if maxChange < |x - lastValue| then Option.some RejectReason.spikeDetected
          else Option.none
        | r, _ => r
      match rejectionReason with
      | Option.some reason =>
        let rejection : Rejection :=
          { sensor := key, rejectedValue := x, reason := reason,
            lastGoodValue := st.lastGoodValues.lookup key }
        let validatedNext :=
          match st.lastGoodValues.lookup key with
          | Option.some lastGood => dictSet validated key (PyValue.num lastGood)
          | Option.none => validated
        ({ st with rejectionLog := addToRejectionLog st.rejectionLog rejection },
         validatedNext, rejections ++ [rejection])
      | Option.none =>
        ({ st with lastGoodValues := dictSet st.lastGoodValues key x },
         validated, rejections)

/-- `validate_data(data)`: returns the updated validator state, the validated
output dict, and the list of rejections of this call. -/
def validateData (st : DataValidator) (data : PyDict) :
    DataValidator × PyDict × List Rejection :=
  if st.limits = [] then (st, data, [])
  else
    data.foldl
      (fun acc kv => validateField acc.1 acc.2.1 acc.2.2 kv.1 kv.2)
      (st, data, [])

-- ==========================================================================
-- ble_client.py (DeviceData health bookkeeping)
-- ==========================================================================

/-- `DeviceData`: per-device health record.  The `config` identity and the
wall-clock `last_update` field are not modelled. -/
structure DeviceData where
  data : PyDict
  isAvailable : Bool
  consecutiveFailures : ℕ

/-- `DeviceData.update(new_data)`: merge the new readings, mark available,
reset the consecutive-failure counter. -/
def DeviceData.update (d : DeviceData) (newData : PyDict) : DeviceData :=
  { d with
      data := newData.foldl (fun acc kv => dictSet acc kv.1 kv.2) d.data,
      isAvailable := true,
      consecutiveFailures := 0 }

/-- `DeviceData.mark_failed()`: bump the counter; at 3 or more consecutive
failures the device becomes unavailable. -/
def DeviceData.markFailed (d : DeviceData) : DeviceData :=
  let failures := d.consecutiveFailures + 1
  { d with
      consecutiveFailures := failures,
      isAvailable := if 3 ≤ failures then false else d.isAvailable }

-- ==========================================================================
-- Specification-side definitions (used only to state claims)
-- ==========================================================================

/-- Big-endian value of a byte list (specification side). -/
def beNat (bs : List ℕ) : ℕ := bs.foldl (fun acc b => acc * 256 + b) 0

/-- The `length` bytes of `data` selected from `offset` (out-of-range
positions read as 0; specification side). -/
def extractBytes (data : List ℕ) (offset len : ℕ) : List ℕ :=
  (List.range len).map (fun i => data.getD (offset + i) 0)

-- ==========================================================================
-- Helper lemmas
-- ==========================================================================

lemma addToRejectionLog_drop (l : List Rejection) (r : Rejection) :
    addToRejectionLog (l.drop (l.length - 100)) r =
      (l ++ [r]).drop ((l ++ [r]).length - 100) := by
  rcases le_or_lt l.length 100 with h | h
  · have h0 : l.length - 100 = 0 := by omega
    rw [h0, List.drop_zero]
    unfold addToRejectionLog
    rcases lt_or_le 100 (l ++ [r]).length with h1 | h1
    · rw [if_pos h1]
    · rw [if_neg (not_lt.mpr h1)]
      have h2 : (l ++ [r]).length - 100 = 0 := by omega
      rw [h2, List.drop_zero]
  · have hlen : (l.drop (l.length - 100)).length = 100 := by
      rw [List.length_drop]; omega
    unfold addToRejectionLog
    have h1 : 100 < (l.drop (l.length - 100) ++ [r]).length := by
      rw [List.length_append, hlen]; simp
    rw [if_pos h1]
    have h2 : (l.drop (l.length - 100) ++ [r]).length - 100 = 1 := by
      rw [List.length_append, hlen]
      simp
    rw [h2]
    have h3 : (1 : ℕ) ≤ (l.drop (l.length - 100)).length := by rw [hlen]; omega
    rw [List.drop_append_of_le_length h3, List.drop_drop]
    have h5 : (l ++ [r]).length - 100 ≤ l.length := by
      simp
    rw [List.drop_append_of_le_length h5]
    have h4 : (l ++ [r]).length - 100 = l.length - 100 + 1 := by
      simp
      omega
    rw [h4]

lemma foldl_addToRejectionLog (rs l : List Rejection) :
    List.foldl addToRejectionLog (l.drop (l.length - 100)) rs =
      (l ++ rs).drop ((l ++ rs).length - 100) := by
  induction rs generalizing l with
  | nil => simp
  | cons r rs ih =>
    rw [List.foldl_cons, addToRejectionLog_drop, ih (l ++ [r]),
      List.append_cons l r rs]

lemma lookup_map_setKey (d : List (String × α)) (k : String) (v : α) :
    List.lookup k (d.map (fun p => if p.1 = k then (k, v) else p)) =
      if d.any (fun p => p.1 == k) then Option.some v else List.lookup k d := by
  induction d with
  | nil => simp
  | cons p d ih =>
    obtain ⟨a, b⟩ := p
    by_cases h : a = k
    · subst h
      simp [List.lookup_cons]
    · have hk : (k == a) = false := by simp [Ne.symm h]
      have ha : (a == k) = false := by simp [h]
      simp only [List.map_cons, List.any_cons, List.lookup_cons, hk, ha,
        Bool.false_or]
      rw [if_neg h]
      simp only [List.lookup_cons, hk]
      exact ih

lemma lookup_append_single (d : List (String × α)) (k : String) (v : α)
    (h : List.lookup k d = Option.none) :
    List.lookup k (d ++ [(k, v)]) = Option.some v := by
  induction d with
  | nil => simp [List.lookup_cons]
  | cons p d ih =>
    obtain ⟨a, b⟩ := p
    rw [List.cons_append, List.lookup_cons]
    rw [List.lookup_cons] at h
    cases hk : k == a with
    | true => rw [hk] at h; simp at h
    | false => rw [hk] at h; simp only; exact ih h

lemma any_false_lookup_none (d : List (String × α)) (k : String)
    (h : d.any (fun p => p.1 == k) = false) :
    List.lookup k d = Option.none := by
  induction d with
  | nil => simp
  | cons p d ih =>
    obtain ⟨a, b⟩ := p
    simp only [List.any_cons, Bool.or_eq_false_iff] at h
    obtain ⟨h1, h2⟩ := h
    have hk : (k == a) = false := by
      simp only [beq_eq_false_iff_ne] at h1 ⊢
      exact Ne.symm h1
    rw [List.lookup_cons, hk]
    exact ih h2

/-- Setting a key always makes it look up to the new value. -/
lemma lookup_dictSet (d : List (String × α)) (k : String) (v : α) :
    List.lookup k (dictSet d k v) = Option.some v := by
  unfold dictSet
  by_cases h : d.any (fun p => p.1 == k)
  · rw [if_pos h, lookup_map_setKey, if_pos h]
  · rw [if_neg h]
    have hf : d.any (fun p => p.1 == k) = false := by
      cases hb : d.any (fun p => p.1 == k)
      · rfl
      · exact absurd hb h
    exact lookup_append_single d k v (any_false_lookup_none d k hf)

lemma and255 (a : ℕ) : a &&& 255 = a % 256 := by
  have h := Nat.and_pow_two_sub_one_eq_mod a 8
  norm_num at h
  exact h

lemma shr8 (a : ℕ) : a >>> 8 = a / 256 := by
  rw [Nat.shiftRight_eq_div_pow]

lemma shl_or_eq (k h l : ℕ) (hl : l < 2 ^ k) : (h <<< k) ||| l = 2 ^ k * h + l := by
  rw [Nat.shiftLeft_eq, Nat.mul_comm]
  exact (Nat.mul_add_lt_is_or hl h).symm

-- ==========================================================================
-- Claim theorems
-- ==========================================================================

/-- C9: for every device health record, three consecutive `mark_failed`
calls with no intervening `update` leave the availability flag false, and a
single `update` resets the consecutive-failure counter to 0 and sets
availability to true. -/
theorem claim9_health_availability (d : DeviceData) (newData : PyDict) :
    d.markFailed.markFailed.markFailed.isAvailable = false ∧
    (d.update newData).consecutiveFailures = 0 ∧
    (d.update newData).isAvailable = true := by
  refine ⟨?_, rfl, rfl⟩
  have h : 3 ≤ d.consecutiveFailures + 1 + 1 + 1 := by omega
  simp [DeviceData.markFailed, h]

/-- C8: starting from an empty log, any sequence of rejection insertions
leaves exactly the most recent at-most-100 entries, the oldest evicted
first (so 105 insertions leave exactly the last 100). -/
theorem claim8_rejection_log_cap (rs : List Rejection) :
    List.foldl addToRejectionLog [] rs = rs.drop (rs.length - 100) ∧
    (List.foldl addToRejectionLog [] rs).length = min rs.length 100 := by
  have h := foldl_addToRejectionLog rs []
  simp only [List.nil_append, List.length_nil, Nat.zero_sub, List.drop_zero] at h
  refine ⟨h, ?_⟩
  rw [h, List.length_drop]
  omega

/-- C3: for every unit id in 1-255, function code (≤ 255), 16-bit register
address and 16-bit word count, `create_modbus_read_request` returns exactly
8 bytes: the 6 header bytes with big-endian address and count, followed by
the CRC16 of those 6 bytes, low byte first; it is total (no failure path). -/
theorem claim3_request_frame (u f a w : ℕ) (hu1 : 1 ≤ u) (hu : u ≤ 255)
    (hf : f ≤ 255) (ha : a < 65536) (hw : w < 65536) :
    createModbusReadRequest u f a w =
      [u, f, a / 256, a % 256, w / 256, w % 256] ++
        [(modbusCrc16 [u, f, a / 256, a % 256, w / 256, w % 256]).1,
         (modbusCrc16 [u, f, a / 256, a % 256, w / 256, w % 256]).2] ∧
    (createModbusReadRequest u f a w).length = 8 := by
  have h1 : (a >>> 8) &&& 0xFF = a / 256 := by
    rw [shr8, and255]
    omega
  have h2 : a &&& 0xFF = a % 256 := by
    rw [and255]
  have h3 : (w >>> 8) &&& 0xFF = w / 256 := by
    rw [shr8, and255]
    omega
  have h4 : w &&& 0xFF = w % 256 := by
    rw [and255]
  constructor
  · rw [createModbusReadRequest, h1, h2, h3, h4]
  · rw [createModbusReadRequest]
    simp

/-- Witness for C3 at unit id 255, function 3, register 256, word count 34
(the controller charging_info read). -/
theorem claim3_request_frame_witness :
    createModbusReadRequest 255 3 256 34 =
      [255, 3, 1, 0, 0, 34] ++
        [(modbusCrc16 [255, 3, 1, 0, 0, 34]).1,
         (modbusCrc16 [255, 3, 1, 0, 0, 34]).2] ∧
    (createModbusReadRequest 255 3 256 34).length = 8 :=
  claim3_request_frame 255 3 256 34 (by decide) (by decide) (by decide)
    (by decide) (by decide)

/-- Shared characterization of `validate_modbus_response`: True exactly when
every check of the source passes. -/
lemma validateModbusResponse_true_iff (data : List ℕ) (expected : Option ℕ) :
    validateModbusResponse data expected = true ↔
      (5 ≤ data.length ∧
       expected.getD (data.getD 0 0) = data.getD 0 0 ∧
       (data.getD 1 0) &&& 0x80 = 0 ∧
       3 + data.getD 2 0 + 2 ≤ data.length ∧
       ((data.getD (3 + data.getD 2 0 + 1) 0) <<< 8) |||
           data.getD (3 + data.getD 2 0) 0 =
         ((modbusCrc16 (data.take (3 + data.getD 2 0))).2 <<< 8) |||
           (modbusCrc16 (data.take (3 + data.getD 2 0))).1) := by
  unfold validateModbusResponse
  have e1 : 3 + data.getD 2 0 + 2 - 1 = 3 + data.getD 2 0 + 1 := by omega
  have e2 : 3 + data.getD 2 0 + 2 - 2 = 3 + data.getD 2 0 := by omega
  simp only [e1, e2]
  split_ifs with h1 h2 h3 h4 h5
  · simp only [Bool.false_eq_true, false_iff]
    omega
  · simp only [Bool.false_eq_true, false_iff]
    intro ⟨_, hid, _⟩
    rcases expected with _ | e
    · simp at h2
    · simp at h2 hid
      omega
  · simp only [Bool.false_eq_true, false_iff]
    intro ⟨_, _, hbit, _⟩
    exact h3 hbit
  · simp only [Bool.false_eq_true, false_iff]
    omega
  · simp only [Bool.false_eq_true, false_iff]
    intro ⟨_, _, _, _, hcrc⟩
    exact h5 hcrc
  · simp only [true_iff]
    refine ⟨by omega, ?_, by omega, by omega, by omega⟩
    rcases expected with _ | e
    · rfl
    · simp at h2
      simp [h2]

/-- C4: `validate_modbus_response(data, expected_unit_id)` returns True
exactly when the frame is at least 5 bytes, the unit id matches when
expected, the function byte's high bit is clear, the declared byte count
fits the frame (`3 + data[2] + 2 ≤ len`), and the CRC16 recomputed over the
first `3 + data[2]` bytes equals the two bytes that follow them; in every
other case it returns False — and, being total, it never raises. -/
theorem claim4_validate_response (data : List ℕ) (expected : Option ℕ) :
    validateModbusResponse data expected = true ↔
      (5 ≤ data.length ∧
       expected.getD (data.getD 0 0) = data.getD 0 0 ∧
       (data.getD 1 0) &&& 0x80 = 0 ∧
       3 + data.getD 2 0 + 2 ≤ data.length ∧
       ((data.getD (3 + data.getD 2 0 + 1) 0) <<< 8) |||
           data.getD (3 + data.getD 2 0) 0 =
         ((modbusCrc16 (data.take (3 + data.getD 2 0))).2 <<< 8) |||
           (modbusCrc16 (data.take (3 + data.getD 2 0))).1) :=
  validateModbusResponse_true_iff data expected

/-- C2 (amended): for every well-formed response body P — at least 3 bytes,
function byte's high bit clear, byte-count byte equal to `len(P) - 3` —
appending the CRC16 of P (low byte first) makes `validate_modbus_response`
accept it with matching unit id, and replacing that two-byte CRC trailer by
any other byte pair (in particular flipping any single bit of it) makes it
reject.  Bodies whose byte-count byte is inconsistent with their length can
fail to validate even with a correct trailer, and a single bit flip inside P
is not always detected, so the original unrestricted claim is false. -/
theorem claim2_crc_roundtrip (P : List ℕ) (h3 : 3 ≤ P.length)
    (hfn : (P.getD 1 0) &&& 0x80 = 0) (hbc : P.getD 2 0 = P.length - 3) :
    validateModbusResponse (P ++ [(modbusCrc16 P).1, (modbusCrc16 P).2])
        (Option.some (P.getD 0 0)) = true ∧
    (∀ lo hi : ℕ, lo < 256 → hi < 256 →
      (lo, hi) ≠ ((modbusCrc16 P).1, (modbusCrc16 P).2) →
      validateModbusResponse (P ++ [lo, hi])
        (Option.some (P.getD 0 0)) = false) := by
  have hcrc_lo : (modbusCrc16 P).1 < 256 := by
    have := Nat.and_le_right (n := P.foldl crcByte 0xFFFF) (m := 0xFF)
    simp only [modbusCrc16]
    omega
  have hcrc_hi : (modbusCrc16 P).2 < 256 := by
    have := Nat.and_le_right (n := (P.foldl crcByte 0xFFFF) >>> 8) (m := 0xFF)
    simp only [modbusCrc16]
    omega
  have key : ∀ lo hi : ℕ,
      (validateModbusResponse (P ++ [lo, hi]) (Option.some (P.getD 0 0)) = true ↔
        ((hi <<< 8) ||| lo) =
          (((modbusCrc16 P).2 <<< 8) ||| (modbusCrc16 P).1)) := by
    intro lo hi
    rw [validateModbusResponse_true_iff]
    have hlen : (P ++ [lo, hi]).length = P.length + 2 := by simp
    have hg0 : (P ++ [lo, hi]).getD 0 0 = P.getD 0 0 :=
      List.getD_append _ _ _ _ (by omega)
    have hg1 : (P ++ [lo, hi]).getD 1 0 = P.getD 1 0 :=
      List.getD_append _ _ _ _ (by omega)
    have hg2 : (P ++ [lo, hi]).getD 2 0 = P.getD 2 0 :=
      List.getD_append _ _ _ _ (by omega)
    rw [hg0, hg1, hg2, hbc, hfn]
    have hel : 3 + (P.length - 3) = P.length := by omega
    rw [hel]
    have hga : (P ++ [lo, hi]).getD (P.length + 1) 0 = hi := by
      rw [List.getD_append_right _ _ _ _ (by omega)]
      simp
    have hgb : (P ++ [lo, hi]).getD P.length 0 = lo := by
      rw [List.getD_append_right _ _ _ _ (by omega)]
      simp
    have htk : (P ++ [lo, hi]).take P.length = P := List.take_left P _
    rw [hga, hgb, htk]
    constructor
    · intro ⟨_, _, _, _, hcrc⟩
      exact hcrc
    · intro hcrc
      exact ⟨by omega, rfl, rfl, by omega, hcrc⟩
  constructor
  · rw [key]
  · intro lo hi hlo hhi hne
    have hnv : ¬(validateModbusResponse (P ++ [lo, hi])
        (Option.some (P.getD 0 0)) = true) := by
      rw [key]
      intro heq
      apply hne
      have e1 : (hi <<< 8) ||| lo = 256 * hi + lo := by
        have h := shl_or_eq 8 hi lo (by omega)
        norm_num at h
        exact h
      have e2 : ((modbusCrc16 P).2 <<< 8) ||| (modbusCrc16 P).1 =
          256 * (modbusCrc16 P).2 + (modbusCrc16 P).1 := by
        have h := shl_or_eq 8 (modbusCrc16 P).2 (modbusCrc16 P).1 (by omega)
        norm_num at h
        exact h
      rw [e1, e2] at heq
      have hp : lo = (modbusCrc16 P).1 ∧ hi = (modbusCrc16 P).2 := by omega
      rw [hp.1, hp.2]
    cases hb : validateModbusResponse (P ++ [lo, hi]) (Option.some (P.getD 0 0))
    · rfl
    · exact absurd hb hnv

/-- C2 counterexample to the original claim: the 3-byte payload [1, 3, 5]
with its own CRC trailer appended and matching unit id 1 is rejected (its
byte-count byte 5 promises a 10-byte frame, but only 5 bytes arrive). -/
theorem claim2_counterexample :
    validateModbusResponse
      ([1, 3, 5] ++ [(modbusCrc16 [1, 3, 5]).1, (modbusCrc16 [1, 3, 5]).2])
      (Option.some 1) = false := by
  decide

/-- Witness for C2 (amended) at the well-formed body [1, 3, 2, 0, 0]: its
CRC trailer validates, and the trailer with the low bit of the CRC low byte
flipped is rejected. -/
theorem claim2_crc_roundtrip_witness :
    validateModbusResponse
      ([1, 3, 2, 0, 0] ++
        [(modbusCrc16 [1, 3, 2, 0, 0]).1, (modbusCrc16 [1, 3, 2, 0, 0]).2])
      (Option.some 1) = true ∧
    validateModbusResponse
      ([1, 3, 2, 0, 0] ++
        [(modbusCrc16 [1, 3, 2, 0, 0]).1 ^^^ 1, (modbusCrc16 [1, 3, 2, 0, 0]).2])
      (Option.some 1) = false := by
  have h := claim2_crc_roundtrip [1, 3, 2, 0, 0] (by decide) (by decide) (by decide)
  exact ⟨h.1,
    h.2 ((modbusCrc16 [1, 3, 2, 0, 0]).1 ^^^ 1) ((modbusCrc16 [1, 3, 2, 0, 0]).2)
      (by decide) (by decide) (by decide)⟩

/-- C10: `bytes_to_int` is total: it returns 0 when the requested slice
overruns the data or the length is not 1, 2 or 4; otherwise it returns the
big-endian integer of the selected bytes (two's-complement when signed),
multiplied by the scale and rounded to 3 decimals when the scale is not 1. -/
theorem claim10_bytes_to_int (data : List ℕ) (offset len : ℕ) (scale : ℚ)
    (signed : Bool) (hbytes : ∀ b ∈ data, b < 256) :
    (data.length < offset + len → bytesToInt data offset len scale signed = 0) ∧
    ((len ≠ 1 ∧ len ≠ 2 ∧ len ≠ 4) →
      bytesToInt data offset len scale signed = 0) ∧
    (offset + len ≤ data.length → (len = 1 ∨ len = 2 ∨ len = 4) →
      bytesToInt data offset len scale signed =
        (let raw := beNat (extractBytes data offset len)
         let v : ℤ :=
           if signed ∧ 2 ^ (8 * len - 1) ≤ raw then (raw : ℤ) - 2 ^ (8 * len)
           else (raw : ℤ)
         if scale ≠ 1 then pyRound ((v : ℚ) * scale) 3 else (v : ℚ))) := by
  refine ⟨?_, ?_, ?_⟩
  · intro h
    unfold bytesToInt
    rw [if_pos h]
  · intro ⟨h1, h2, h4⟩
    by_cases hg : data.length < offset + len
    · unfold bytesToInt
      rw [if_pos hg]
    · simp [bytesToInt, hg, h1, h2, h4]
  · intro hle hl14
    have hnl : ¬(data.length < offset + len) := by omega
    have hb : ∀ i, i < len → data.getD (offset + i) 0 < 256 := by
      intro i hi
      have hlt : offset + i < data.length := by omega
      rw [List.getD_eq_getElem data 0 hlt]
      exact hbytes _ (data.getElem_mem hlt)
    rcases hl14 with h1 | h2 | h4
    · subst h1
      have b0 := hb 0 (by omega)
      simp only [Nat.add_zero] at b0
      have e0 : extractBytes data offset 1 = [data.getD offset 0] := by
        have hr : List.range 1 = [0] := rfl
        simp [extractBytes, hr]
      have e1 : beNat [data.getD offset 0] = data.getD offset 0 := by
        simp [beNat]
      have hpow : (2 : ℕ) ^ (8 * 1 - 1) = 128 := by norm_num
      have hv : (if signed ∧ 127 < data.getD offset 0 then
            ((data.getD offset 0 : ℤ)) - 256 else (data.getD offset 0 : ℤ)) =
          (if signed ∧ 2 ^ (8 * 1 - 1) ≤ data.getD offset 0 then
            ((data.getD offset 0 : ℤ)) - 2 ^ (8 * 1)
           else (data.getD offset 0 : ℤ)) := by
        by_cases hs : signed = true
        · by_cases hr : 127 < data.getD offset 0
          · rw [if_pos ⟨hs, hr⟩, if_pos ⟨hs, by rw [hpow]; omega⟩]
            norm_num
          · rw [if_neg (fun hc => hr hc.2),
              if_neg (fun hc => hr (by have hc2 := hc.2; rw [hpow] at hc2; omega))]
        · rw [if_neg (fun hc => hs hc.1), if_neg (fun hc => hs hc.1)]
      simp only [bytesToInt, if_neg hnl, e0, e1]
      rw [hv]
      simp
    · subst h2
      have b0 := hb 0 (by omega)
      have b1 := hb 1 (by omega)
      simp only [Nat.add_zero] at b0
      have e0 : extractBytes data offset 2 =
          [data.getD offset 0, data.getD (offset + 1) 0] := by
        have hr : List.range 2 = [0, 1] := rfl
        simp [extractBytes, hr]
      have e1 : beNat [data.getD offset 0, data.getD (offset + 1) 0] =
          256 * data.getD offset 0 + data.getD (offset + 1) 0 := by
        simp [beNat]
        ring
      have hp8 : (2 : ℕ) ^ 8 = 256 := by norm_num
      have e2 : (data.getD offset 0) <<< 8 ||| data.getD (offset + 1) 0 =
          256 * data.getD offset 0 + data.getD (offset + 1) 0 := by
        have h := shl_or_eq 8 (data.getD offset 0) (data.getD (offset + 1) 0)
          (by rw [hp8]; omega)
        rw [hp8] at h
        exact h
      have hpow : (2 : ℕ) ^ (8 * 2 - 1) = 32768 := by norm_num
      set r := 256 * data.getD offset 0 + data.getD (offset + 1) 0 with hdefr
      have hv : (if signed ∧ 32767 < r then ((r : ℤ)) - 65536 else (r : ℤ)) =
          (if signed ∧ 2 ^ (8 * 2 - 1) ≤ r then ((r : ℤ)) - 2 ^ (8 * 2)
           else (r : ℤ)) := by
        by_cases hs : signed = true
        · by_cases hrr : 32767 < r
          · rw [if_pos ⟨hs, hrr⟩, if_pos ⟨hs, by rw [hpow]; omega⟩]
            norm_num
          · rw [if_neg (fun hc => hrr hc.2),
              if_neg (fun hc => hrr (by have hc2 := hc.2; rw [hpow] at hc2; omega))]
        · rw [if_neg (fun hc => hs hc.1), if_neg (fun hc => hs hc.1)]
      simp only [bytesToInt, if_neg hnl, e0, e1, e2]
      rw [hv]
      simp
    · subst h4
      have b0 := hb 0 (by omega)
      have b1 := hb 1 (by omega)
      have b2 := hb 2 (by omega)
      have b3 := hb 3 (by omega)
      simp only [Nat.add_zero] at b0
      have e0 : extractBytes data offset 4 =
          [data.getD offset 0, data.getD (offset + 1) 0,
           data.getD (offset + 2) 0, data.getD (offset + 3) 0] := by
        have hr : List.range 4 = [0, 1, 2, 3] := rfl
        simp [extractBytes, hr]
      have e1 : beNat [data.getD offset 0, data.getD (offset + 1) 0,
          data.getD (offset + 2) 0, data.getD (offset + 3) 0] =
          16777216 * data.getD offset 0 + 65536 * data.getD (offset + 1) 0 +
            256 * data.getD (offset + 2) 0 + data.getD (offset + 3) 0 := by
        simp [beNat]
        ring
      have hp8 : (2 : ℕ) ^ 8 = 256 := by norm_num
      have hp16 : (2 : ℕ) ^ 16 = 65536 := by norm_num
      have hp24 : (2 : ℕ) ^ 24 = 16777216 := by norm_num
      have e23 : (data.getD (offset + 2) 0) <<< 8 ||| data.getD (offset + 3) 0 =
          256 * data.getD (offset + 2) 0 + data.getD (offset + 3) 0 := by
        have h := shl_or_eq 8 (data.getD (offset + 2) 0) (data.getD (offset + 3) 0)
          (by rw [hp8]; omega)
        rw [hp8] at h
        exact h
      have e123 : (data.getD (offset + 1) 0) <<< 16 |||
          ((data.getD (offset + 2) 0) <<< 8 ||| data.getD (offset + 3) 0) =
          65536 * data.getD (offset + 1) 0 + 256 * data.getD (offset + 2) 0 +
            data.getD (offset + 3) 0 := by
        rw [e23]
        have h := shl_or_eq 16 (data.getD (offset + 1) 0)
          (256 * data.getD (offset + 2) 0 + data.getD (offset + 3) 0)
          (by rw [hp16]; omega)
        rw [hp16] at h
        rw [h]
        ring
      have e0123 : (data.getD offset 0) <<< 24 |||
          ((data.getD (offset + 1) 0) <<< 16 |||
            ((data.getD (offset + 2) 0) <<< 8 ||| data.getD (offset + 3) 0)) =
          16777216 * data.getD offset 0 + 65536 * data.getD (offset + 1) 0 +
            256 * data.getD (offset + 2) 0 + data.getD (offset + 3) 0 := by
        rw [e123]
        have h := shl_or_eq 24 (data.getD offset 0)
          (65536 * data.getD (offset + 1) 0 + 256 * data.getD (offset + 2) 0 +
            data.getD (offset + 3) 0)
          (by rw [hp24]; omega)
        rw [hp24] at h
        rw [h]
        ring
      have eassoc : (data.getD offset 0) <<< 24 |||
            ((data.getD (offset + 1) 0) <<< 16) |||
            ((data.getD (offset + 2) 0) <<< 8) ||| data.getD (offset + 3) 0 =
          (data.getD offset 0) <<< 24 |||
            ((data.getD (offset + 1) 0) <<< 16 |||
              ((data.getD (offset + 2) 0) <<< 8 ||| data.getD (offset + 3) 0)) := by
        rw [Nat.or_assoc, Nat.or_assoc]
      have hpow : (2 : ℕ) ^ (8 * 4 - 1) = 2147483648 := by norm_num
      simp only [bytesToInt, if_neg hnl, e0, e1]
      rw [eassoc, e0123]
      set r := 16777216 * data.getD offset 0 + 65536 * data.getD (offset + 1) 0 +
        256 * data.getD (offset + 2) 0 + data.getD (offset + 3) 0 with hdefr
      have hv : (if signed ∧ 2147483647 < r then ((r : ℤ)) - 4294967296
            else (r : ℤ)) =
          (if signed ∧ 2 ^ (8 * 4 - 1) ≤ r then ((r : ℤ)) - 2 ^ (8 * 4)
           else (r : ℤ)) := by
        by_cases hs : signed = true
        · by_cases hrr : 2147483647 < r
          · rw [if_pos ⟨hs, hrr⟩, if_pos ⟨hs, by rw [hpow]; omega⟩]
            norm_num
          · rw [if_neg (fun hc => hrr hc.2),
              if_neg (fun hc => hrr (by have hc2 := hc.2; rw [hpow] at hc2; omega))]
        · rw [if_neg (fun hc => hs hc.1), if_neg (fun hc => hs hc.1)]
      rw [hv]
      simp

set_option maxRecDepth 4096 in
/-- Witness for C10: the two-byte big-endian read of [1, 0] is 256, and with
scale 0.1 decodes to 25.6; reading 2 bytes at offset 1 overruns and yields 0. -/
theorem claim10_bytes_to_int_witness :
    bytesToInt [1, 0] 0 2 (1/10) false = 128/5 ∧
    bytesToInt [1, 0] 1 2 (1/10) false = 0 := by
  constructor
  · have h := claim10_bytes_to_int [1, 0] 0 2 (1/10) false (by decide)
    rw [h.2.2 (by decide) (by decide)]
    have hraw : beNat (extractBytes [1, 0] 0 2) = 256 := by decide
    simp only [hraw]
    norm_num [pyRound, pyRoundInt, Int.fract]
  · have h := claim10_bytes_to_int [1, 0] 1 2 (1/10) false (by decide)
    exact h.1 (by decide)

/-- C1 (amended): every parser in the per-device-type dispatch table, given
a payload shorter than its minimum required length, returns without raising
a mapping containing no decoded register data: the empty mapping for all
parsers except parse_controller_faults and parse_battery_alarm_info, which
return their initialized default mapping (empty lists and zero counts). -/
theorem claim1_short_payload_parsers (data : List ℕ) :
    (data.length < 19 → parseResponse DeviceType.controller 12 data = []) ∧
    (data.length < 5 → parseResponse DeviceType.controller 26 data = []) ∧
    (data.length < 71 → parseResponse DeviceType.controller 256 data = []) ∧
    (data.length < 7 →
      parseResponse DeviceType.controller 289 data = controllerFaultsShortResult) ∧
    (data.length < 5 → parseResponse DeviceType.controller 57348 data = []) ∧
    (data.length < 45 → parseResponse DeviceType.controller 60000 data = []) ∧
    (data.length < 7 → parseResponse DeviceType.battery 5000 data = []) ∧
    (data.length < 7 → parseResponse DeviceType.battery 5017 data = []) ∧
    (data.length < 15 → parseResponse DeviceType.battery 5042 data = []) ∧
    (data.length < 23 →
      parseResponse DeviceType.battery 5100 data = batteryAlarmShortResult) ∧
    (data.length < 19 → parseResponse DeviceType.battery 5122 data = []) ∧
    (data.length < 21 → parseResponse DeviceType.inverter 4000 data = []) ∧
    (data.length < 51 → parseResponse DeviceType.inverter 4303 data = []) ∧
    (data.length < 15 → parseResponse DeviceType.inverter 4327 data = []) ∧
    (data.length < 33 → parseResponse DeviceType.inverter 4398 data = []) ∧
    (data.length < 11 → parseResponse DeviceType.inverter 4441 data = []) ∧
    (data.length < 13 → parseResponse DeviceType.inverter 4543 data = []) := by
  refine ⟨?_, ?_, ?_, ?_, ?_, ?_, ?_, ?_, ?_, ?_, ?_, ?_, ?_, ?_, ?_, ?_, ?_⟩
  · intro h
    show parseControllerDeviceInfo data 3 = []
    unfold parseControllerDeviceInfo
    rw [if_pos (by omega)]
  · intro h
    show parseControllerDeviceId data 3 = []
    unfold parseControllerDeviceId
    rw [if_pos (by omega)]
  · intro h
    show parseControllerChargingInfo data 3 = []
    unfold parseControllerChargingInfo
    rw [if_pos (by omega)]
  · intro h
    show parseControllerFaults data 3 = controllerFaultsShortResult
    unfold parseControllerFaults
    rw [if_pos (by omega)]
  · intro h
    show parseControllerBatteryType data 3 = []
    unfold parseControllerBatteryType
    rw [if_pos (by omega)]
  · intro h
    show parseControllerHistorical data 3 = []
    unfold parseControllerHistorical
    rw [if_pos (by omega)]
  · intro h
    show parseBatteryCellInfo data 3 = []
    unfold parseBatteryCellInfo
    rw [if_pos (by omega)]
  · intro h
    show parseBatteryTempInfo data 3 = []
    unfold parseBatteryTempInfo
    rw [if_pos (by omega)]
  · intro h
    show parseBatteryInfo data 3 = []
    unfold parseBatteryInfo
    rw [if_pos (by omega)]
  · intro h
    show parseBatteryAlarmInfo data 3 = batteryAlarmShortResult
    unfold parseBatteryAlarmInfo
    rw [if_pos (by omega)]
  · intro h
    show parseBatteryDeviceInfo data 3 = []
    unfold parseBatteryDeviceInfo
    rw [if_pos (by omega)]
  · intro h
    show parseInverterMainStatus data 3 = []
    unfold parseInverterMainStatus
    rw [if_pos (by omega)]
  · intro h
    show parseInverterDeviceInfo data 3 = []
    unfold parseInverterDeviceInfo
    rw [if_pos (by omega)]
  · intro h
    show parseInverterPvInfo data 3 = []
    unfold parseInverterPvInfo
    rw [if_pos (by omega)]
  · intro h
    show parseInverterSettingsStatus data 3 = []
    unfold parseInverterSettingsStatus
    rw [if_pos (by omega)]
  · intro h
    show parseInverterSettings data 3 = []
    unfold parseInverterSettings
    rw [if_pos (by omega)]
  · intro h
    show parseInverterStatistics data 3 = []
    unfold parseInverterStatistics
    rw [if_pos (by omega)]

/-- C1 counterexample to the original claim: the faults parser (register 289
of the controller dispatch table), on a payload shorter than its minimum
required length, returns a NON-empty mapping (its four default entries). -/
theorem claim1_counterexample :
    ([] : List ℕ).length < minRequiredLen DeviceType.controller 289 ∧
    parseResponse DeviceType.controller 289 [] ≠ [] := by
  constructor
  · decide
  · show parseControllerFaults [] 3 ≠ []
    simp [parseControllerFaults, controllerFaultsShortResult]

/-- Witness for C1 (amended): every dispatch-table parser applied to the
empty payload. -/
theorem claim1_short_payload_parsers_witness :
    parseResponse DeviceType.controller 12 [] = [] ∧
    parseResponse DeviceType.controller 26 [] = [] ∧
    parseResponse DeviceType.controller 256 [] = [] ∧
    parseResponse DeviceType.controller 289 [] = controllerFaultsShortResult ∧
    parseResponse DeviceType.controller 57348 [] = [] ∧
    parseResponse DeviceType.controller 60000 [] = [] ∧
    parseResponse DeviceType.battery 5000 [] = [] ∧
    parseResponse DeviceType.battery 5017 [] = [] ∧
    parseResponse DeviceType.battery 5042 [] = [] ∧
    parseResponse DeviceType.battery 5100 [] = batteryAlarmShortResult ∧
    parseResponse DeviceType.battery 5122 [] = [] ∧
    parseResponse DeviceType.inverter 4000 [] = [] ∧
    parseResponse DeviceType.inverter 4303 [] = [] ∧
    parseResponse DeviceType.inverter 4327 [] = [] ∧
    parseResponse DeviceType.inverter 4398 [] = [] ∧
    parseResponse DeviceType.inverter 4441 [] = [] ∧
    parseResponse DeviceType.inverter 4543 [] = [] := by
  have h := claim1_short_payload_parsers []
  exact ⟨h.1 (by decide), h.2.1 (by decide), h.2.2.1 (by decide),
    h.2.2.2.1 (by decide), h.2.2.2.2.1 (by decide), h.2.2.2.2.2.1 (by decide),
    h.2.2.2.2.2.2.1 (by decide), h.2.2.2.2.2.2.2.1 (by decide),
    h.2.2.2.2.2.2.2.2.1 (by decide), h.2.2.2.2.2.2.2.2.2.1 (by decide),
    h.2.2.2.2.2.2.2.2.2.2.1 (by decide), h.2.2.2.2.2.2.2.2.2.2.2.1 (by decide),
    h.2.2.2.2.2.2.2.2.2.2.2.2.1 (by decide),
    h.2.2.2.2.2.2.2.2.2.2.2.2.2.1 (by decide),
    h.2.2.2.2.2.2.2.2.2.2.2.2.2.2.1 (by decide),
    h.2.2.2.2.2.2.2.2.2.2.2.2.2.2.2.1 (by decide),
    h.2.2.2.2.2.2.2.2.2.2.2.2.2.2.2.2 (by decide)⟩

/-- C5: on any sufficiently long payload, `parse_battery_info` emits numeric
fields current, voltage, remaining_capacity and total_capacity such that the
derived `soc` field equals remaining/total × 100 rounded to 1 decimal when
total > 0 and equals 0 when total ≤ 0, and the derived `power` field equals
voltage × current rounded to 1 decimal. -/
theorem claim5_battery_soc_power (data : List ℕ) (h : 15 ≤ data.length) :
    ∃ rem tot volt cur : ℚ,
      (parseBatteryInfo data 3).lookup "remaining_capacity" =
        Option.some (PyValue.num rem) ∧
      (parseBatteryInfo data 3).lookup "total_capacity" =
        Option.some (PyValue.num tot) ∧
      (parseBatteryInfo data 3).lookup "voltage" =
        Option.some (PyValue.num volt) ∧
      (parseBatteryInfo data 3).lookup "current" =
        Option.some (PyValue.num cur) ∧
      (0 < tot → (parseBatteryInfo data 3).lookup "soc" =
        Option.some (PyValue.num (pyRound (rem / tot * 100) 1))) ∧
      (tot ≤ 0 → (parseBatteryInfo data 3).lookup "soc" =
        Option.some (PyValue.num 0)) ∧
      (parseBatteryInfo data 3).lookup "power" =
        Option.some (PyValue.num (pyRound (volt * cur) 1)) := by
  have hne : ¬(data.length < 3 + 12) := by omega
  refine ⟨bytesToInt data 7 4 (1/1000) false, bytesToInt data 11 4 (1/1000) false,
    bytesToInt data 5 2 (1/10) false, bytesToInt data 3 2 (1/100) true,
    ?_, ?_, ?_, ?_, ?_, ?_, ?_⟩
  · simp only [parseBatteryInfo, if_neg hne]
    rfl
  · simp only [parseBatteryInfo, if_neg hne]
    rfl
  · simp only [parseBatteryInfo, if_neg hne]
    rfl
  · simp only [parseBatteryInfo, if_neg hne]
    rfl
  · intro h0
    simp only [parseBatteryInfo, if_neg hne]
    have hstep : List.lookup "soc"
        [("current", PyValue.num (bytesToInt data 3 2 (1/100) true)),
         ("voltage", PyValue.num (bytesToInt data 5 2 (1/10) false)),
         ("remaining_capacity", PyValue.num (bytesToInt data 7 4 (1/1000) false)),
         ("total_capacity", PyValue.num (bytesToInt data 11 4 (1/1000) false)),
         ("soc", PyValue.num (if 0 < bytesToInt data 11 4 (1/1000) false then
            pyRound (bytesToInt data 7 4 (1/1000) false /
              bytesToInt data 11 4 (1/1000) false * 100) 1 else 0)),
         ("power", PyValue.num (pyRound (bytesToInt data 5 2 (1/10) false *
            bytesToInt data 3 2 (1/100) true) 1))] =
        Option.some (PyValue.num (if 0 < bytesToInt data 11 4 (1/1000) false then
          pyRound (bytesToInt data 7 4 (1/1000) false /
            bytesToInt data 11 4 (1/1000) false * 100) 1 else 0)) := rfl
    rw [hstep, if_pos h0]
  · intro h0
    simp only [parseBatteryInfo, if_neg hne]
    have hstep : List.lookup "soc"
        [("current", PyValue.num (bytesToInt data 3 2 (1/100) true)),
         ("voltage", PyValue.num (bytesToInt data 5 2 (1/10) false)),
         ("remaining_capacity", PyValue.num (bytesToInt data 7 4 (1/1000) false)),
         ("total_capacity", PyValue.num (bytesToInt data 11 4 (1/1000) false)),
         ("soc", PyValue.num (if 0 < bytesToInt data 11 4 (1/1000) false then
            pyRound (bytesToInt data 7 4 (1/1000) false /
              bytesToInt data 11 4 (1/1000) false * 100) 1 else 0)),
         ("power", PyValue.num (pyRound (bytesToInt data 5 2 (1/10) false *
            bytesToInt data 3 2 (1/100) true) 1))] =
        Option.some (PyValue.num (if 0 < bytesToInt data 11 4 (1/1000) false then
          pyRound (bytesToInt data 7 4 (1/1000) false /
            bytesToInt data 11 4 (1/1000) false * 100) 1 else 0)) := rfl
    rw [hstep, if_neg (not_lt.mpr h0)]
  · simp only [parseBatteryInfo, if_neg hne]
    rfl

set_option maxRecDepth 4096 in
/-- Witness for C5: a payload decoding to remaining_capacity 0.05 and
total_capacity 0.10 yields soc 50.0. -/
theorem claim5_battery_soc_power_witness :
    (parseBatteryInfo [0, 0, 0, 0, 0, 0, 0, 0, 0, 0, 50, 0, 0, 0, 100] 3).lookup
        "remaining_capacity" = Option.some (PyValue.num (1/20)) ∧
    (parseBatteryInfo [0, 0, 0, 0, 0, 0, 0, 0, 0, 0, 50, 0, 0, 0, 100] 3).lookup
        "total_capacity" = Option.some (PyValue.num (1/10)) ∧
    (parseBatteryInfo [0, 0, 0, 0, 0, 0, 0, 0, 0, 0, 50, 0, 0, 0, 100] 3).lookup
        "soc" = Option.some (PyValue.num 50) := by
  have hremv : bytesToInt [0, 0, 0, 0, 0, 0, 0, 0, 0, 0, 50, 0, 0, 0, 100]
      7 4 (1/1000) false = 1/20 := by
    norm_num [bytesToInt, pyRound, pyRoundInt, Int.fract]
  have htotv : bytesToInt [0, 0, 0, 0, 0, 0, 0, 0, 0, 0, 50, 0, 0, 0, 100]
      11 4 (1/1000) false = 1/10 := by
    norm_num [bytesToInt, pyRound, pyRoundInt, Int.fract]
  have hlookrem : (parseBatteryInfo
      [0, 0, 0, 0, 0, 0, 0, 0, 0, 0, 50, 0, 0, 0, 100] 3).lookup
      "remaining_capacity" = Option.some (PyValue.num (1/20)) := by
    simp only [parseBatteryInfo]
    rw [if_neg (by decide), hremv]
    rfl
  have hlooktot : (parseBatteryInfo
      [0, 0, 0, 0, 0, 0, 0, 0, 0, 0, 50, 0, 0, 0, 100] 3).lookup
      "total_capacity" = Option.some (PyValue.num (1/10)) := by
    simp only [parseBatteryInfo]
    rw [if_neg (by decide), htotv]
    rfl
  obtain ⟨rem, tot, volt, cur, h1, h2, h3, h4, h5, h6, h7⟩ :=
    claim5_battery_soc_power [0, 0, 0, 0, 0, 0, 0, 0, 0, 0, 50, 0, 0, 0, 100]
      (by decide)
  have hr : rem = 1/20 := by
    rw [hlookrem] at h1
    simpa using h1.symm
  have ht : tot = 1/10 := by
    rw [hlooktot] at h2
    simpa using h2.symm
  subst hr
  subst ht
  have hsoc := h5 (by norm_num)
  have hv : pyRound ((1/20 : ℚ) / (1/10) * 100) 1 = 50 := by
    norm_num [pyRound, pyRoundInt, Int.fract]
  rw [hv] at hsoc
  exact ⟨hlookrem, hlooktot, hsoc⟩

/-- C6: for a cataloged numeric field, `validate_data` rejects below-min /
above-max values; otherwise, with a prior known-good value, it rejects as a
spike exactly when the absolute change exceeds max_change; any rejection
with an existing prior good value substitutes that value into the output;
and an accepted value becomes the new last-known-good. -/
theorem claim6_validator_range_and_spike
    (st : DataValidator) (key : String) (value : PyValue)
    (minVal maxVal maxChange x : ℚ)
    (hlim : st.limits.lookup key = Option.some (minVal, maxVal, maxChange))
    (hx : toNumber value = Option.some x) :
    (x < minVal →
        (validateData st [(key, value)]).2.2 =
          [⟨key, x, RejectReason.belowMinimum, st.lastGoodValues.lookup key⟩]) ∧
    (minVal ≤ x → maxVal < x →
        (validateData st [(key, value)]).2.2 =
          [⟨key, x, RejectReason.aboveMaximum, st.lastGoodValues.lookup key⟩]) ∧
    (∀ last, st.lastGoodValues.lookup key = Option.some last →
        minVal ≤ x → x ≤ maxVal →
        ((maxChange < |x - last| →
            (validateData st [(key, value)]).2.2 =
              [⟨key, x, RejectReason.spikeDetected, Option.some last⟩]) ∧
         (|x - last| ≤ maxChange →
            (validateData st [(key, value)]).2.2 = []))) ∧
    (∀ last, st.lastGoodValues.lookup key = Option.some last →
        (validateData st [(key, value)]).2.2 ≠ [] →
        (validateData st [(key, value)]).2.1 = [(key, PyValue.num last)]) ∧
    ((validateData st [(key, value)]).2.2 = [] →
        (validateData st [(key, value)]).2.1 = [(key, value)] ∧
        (validateData st [(key, value)]).1.lastGoodValues.lookup key =
          Option.some x) := by
  have hne : st.limits ≠ [] := by
    intro hemp
    rw [hemp] at hlim
    simp at hlim
  have hstep : validateData st [(key, value)] =
      validateField st [(key, value)] [] key value := by
    unfold validateData
    rw [if_neg hne]
    rfl
  rw [hstep]
  unfold validateField
  by_cases hlt : x < minVal
  · simp only [hlim, hx, if_pos hlt]
    refine ⟨?_, ?_, ?_, ?_, ?_⟩
    · intro _
      simp
    · intro hge _
      exact absurd hlt (not_lt.mpr hge)
    · intro last _ hge _
      exact absurd hlt (not_lt.mpr hge)
    · intro last hlast _
      simp only [hlast]
      simp [dictSet]
    · intro hemp2
      simp at hemp2
  · by_cases hgt : maxVal < x
    · simp only [hlim, hx, if_neg hlt, if_pos hgt]
      refine ⟨?_, ?_, ?_, ?_, ?_⟩
      · intro hc
        exact absurd hc hlt
      · intro _ _
        simp
      · intro last _ _ hle
        exact absurd hgt (not_lt.mpr hle)
      · intro last hlast _
        simp only [hlast]
        simp [dictSet]
      · intro hemp2
        simp at hemp2
    · cases hlook : st.lastGoodValues.lookup key with
      | none =>
        simp only [hlim, hx, if_neg hlt, if_neg hgt, hlook]
        refine ⟨?_, ?_, ?_, ?_, ?_⟩
        · intro hc
          exact absurd hc hlt
        · intro _ hc
          exact absurd hc hgt
        · intro last hlast
          exact absurd hlast (by simp)
        · intro last hlast
          exact absurd hlast (by simp)
        · intro _
          exact ⟨by simp, lookup_dictSet st.lastGoodValues key x⟩
      | some last =>
        by_cases hsp : maxChange < |x - last|
        · simp only [hlim, hx, if_neg hlt, if_neg hgt, hlook, if_pos hsp]
          refine ⟨?_, ?_, ?_, ?_, ?_⟩
          · intro hc
            exact absurd hc hlt
          · intro _ hc
            exact absurd hc hgt
          · intro lastv hlastv _ _
            simp only [Option.some.injEq] at hlastv
            subst hlastv
            exact ⟨fun _ => by simp, fun hle => absurd hsp (not_lt.mpr hle)⟩
          · intro lastv hlastv _
            simp only [Option.some.injEq] at hlastv
            subst hlastv
            simp [dictSet]
          · intro hemp2
            simp at hemp2
        · simp only [hlim, hx, if_neg hlt, if_neg hgt, hlook, if_neg hsp]
          refine ⟨?_, ?_, ?_, ?_, ?_⟩
          · intro hc
            exact absurd hc hlt
          · intro _ hc
            exact absurd hc hgt
          · intro lastv hlastv _ _
            simp only [Option.some.injEq] at hlastv
            subst hlastv
            exact ⟨fun hc => absurd hc hsp, fun _ => by simp⟩
          · intro lastv _ hemp2
            exact absurd rfl hemp2
          · intro _
            exact ⟨by simp, lookup_dictSet st.lastGoodValues key x⟩

/-- C7: a cataloged numeric field that fails its range check with no prior
known-good value is left unmodified in the output (no substitution, no
drop), while the rejection is still recorded in the returned rejection list
and appended to the validator's rejection log. -/
theorem claim7_no_prior_out_of_range
    (st : DataValidator) (key : String) (value : PyValue)
    (minVal maxVal maxChange x : ℚ)
    (hlim : st.limits.lookup key = Option.some (minVal, maxVal, maxChange))
    (hx : toNumber value = Option.some x)
    (hrange : x < minVal ∨ maxVal < x)
    (hnoprior : st.lastGoodValues.lookup key = Option.none) :
    (validateData st [(key, value)]).2.1 = [(key, value)] ∧
    (validateData st [(key, value)]).2.2 =
      [⟨key, x,
        (if x < minVal then RejectReason.belowMinimum
         else RejectReason.aboveMaximum), Option.none⟩] ∧
    (validateData st [(key, value)]).1.rejectionLog =
      addToRejectionLog st.rejectionLog
        ⟨key, x,
         (if x < minVal then RejectReason.belowMinimum
          else RejectReason.aboveMaximum), Option.none⟩ := by
  have hne : st.limits ≠ [] := by
    intro hemp
    rw [hemp] at hlim
    simp at hlim
  have hstep : validateData st [(key, value)] =
      validateField st [(key, value)] [] key value := by
    unfold validateData
    rw [if_neg hne]
    rfl
  rw [hstep]
  unfold validateField
  by_cases hlt : x < minVal
  · simp only [hlim, hx, if_pos hlt, hnoprior]
    exact ⟨by simp, by simp, by simp⟩
  · have hgt : maxVal < x := hrange.resolve_left hlt
    simp only [hlim, hx, if_neg hlt, if_pos hgt, hnoprior]
    exact ⟨by simp, by simp [hlt], by simp⟩

/-- Witness for C6, on the real 12V controller catalog: with prior good
battery_voltage 12.0 and max_change 5, the reading 18.0 is rejected as a
spike and the output carries 12.0; the reading 15.0 is accepted and becomes
the new last-known-good. -/
theorem claim6_validator_range_and_spike_witness :
    (validateData
        ⟨getControllerValidationLimits 12, [("battery_voltage", 12)], []⟩
        [("battery_voltage", PyValue.num 18)]).2.2 =
      [⟨"battery_voltage", 18, RejectReason.spikeDetected, Option.some 12⟩] ∧
    (validateData
        ⟨getControllerValidationLimits 12, [("battery_voltage", 12)], []⟩
        [("battery_voltage", PyValue.num 18)]).2.1 =
      [("battery_voltage", PyValue.num 12)] ∧
    (validateData
        ⟨getControllerValidationLimits 12, [("battery_voltage", 12)], []⟩
        [("battery_voltage", PyValue.num 15)]).2.2 = [] ∧
    (validateData
        ⟨getControllerValidationLimits 12, [("battery_voltage", 12)], []⟩
        [("battery_voltage", PyValue.num 15)]).1.lastGoodValues.lookup
        "battery_voltage" = Option.some 15 := by
  have hlim : (getControllerValidationLimits 12).lookup "battery_voltage" =
      Option.some (0, 20, 5) := by
    norm_num [getControllerValidationLimits, CONTROLLER_BASE_LIMITS,
      VOLTAGE_SCALED_KEYS, List.lookup]
  have habs6 : |(18 : ℚ) - 12| = 6 := by
    rw [show (18 : ℚ) - 12 = 6 by norm_num]
    norm_num
  have habs3 : |(15 : ℚ) - 12| = 3 := by
    rw [show (15 : ℚ) - 12 = 3 by norm_num]
    norm_num
  have h18 := claim6_validator_range_and_spike
    ⟨getControllerValidationLimits 12, [("battery_voltage", 12)], []⟩
    "battery_voltage" (PyValue.num 18) 0 20 5 18 hlim rfl
  have h15 := claim6_validator_range_and_spike
    ⟨getControllerValidationLimits 12, [("battery_voltage", 12)], []⟩
    "battery_voltage" (PyValue.num 15) 0 20 5 15 hlim rfl
  have hspike := (h18.2.2.1 12 rfl (by norm_num) (by norm_num)).1
    (by rw [habs6]; norm_num)
  have hsub := h18.2.2.2.1 12 rfl (by rw [hspike]; simp)
  have hacc := (h15.2.2.1 12 rfl (by norm_num) (by norm_num)).2
    (by rw [habs3]; norm_num)
  have hgood := (h15.2.2.2.2 hacc).2
  exact ⟨hspike, hsub, hacc, hgood⟩

/-- Witness for C7, on the real 12V controller catalog with no prior good
value: battery_voltage 25.0 (above the max of 20) is rejected as
above_maximum, recorded in the log, and the output keeps 25.0. -/
theorem claim7_no_prior_out_of_range_witness :
    (validateData (mkDataValidator "controller" 12)
        [("battery_voltage", PyValue.num 25)]).2.1 =
      [("battery_voltage", PyValue.num 25)] ∧
    (validateData (mkDataValidator "controller" 12)
        [("battery_voltage", PyValue.num 25)]).2.2 =
      [⟨"battery_voltage", 25, RejectReason.aboveMaximum, Option.none⟩] ∧
    (validateData (mkDataValidator "controller" 12)
        [("battery_voltage", PyValue.num 25)]).1.rejectionLog =
      addToRejectionLog []
        ⟨"battery_voltage", 25, RejectReason.aboveMaximum, Option.none⟩ := by
  have hlim : (mkDataValidator "controller" 12).limits.lookup
      "battery_voltage" = Option.some (0, 20, 5) := by
    norm_num [mkDataValidator, getControllerValidationLimits,
      CONTROLLER_BASE_LIMITS, VOLTAGE_SCALED_KEYS, List.lookup]
  have h := claim7_no_prior_out_of_range (mkDataValidator "controller" 12)
    "battery_voltage" (PyValue.num 25) 0 20 5 25 hlim rfl
    (Or.inr (by norm_num)) rfl
  have hn : ¬((25 : ℚ) < 0) := by norm_num
  rw [if_neg hn] at h
  exact h

